import Mathlib

/-!
Verification of the request-governance layer of an A-share data CLI:
a pacing rate limiter, a classifying retry handler with exponential backoff,
a TTL cache, and a per-operation source router (scripts/rate_limiter.py),
together with the orchestration in scripts/spot.py (get_spot) and
scripts/hist.py (get_hist).

Modelling conventions:
- Python values that flow through the cache and the governed calls are
  modelled by the inductive `PyVal`; Python truthiness by `PyVal.truthy`.
- Wall-clock time, delays and TTLs are modelled by `ℚ`.  Sampled random
  values (random.uniform) are passed in explicitly as parameters.
- A fetch thunk is modelled as `Nat → Except String α`: the result of its
  i-th invocation (0-indexed); exceptions are `Except.error` carrying the
  exception's string form.
- `time.sleep` is modelled by recording the slept duration; after a sleep
  the clock is taken to advance by exactly that duration.
-/

namespace AkshareGov

/-- Model of a Python value as it flows through the cache and the governed
calls (None, bools, ints, strings, lists, dicts). -/
inductive PyVal where
  | none
  | bool (b : Bool)
  | int (n : Int)
  | str (s : String)
  | list (xs : List PyVal)
  | dict (xs : List (String × PyVal))

/-- Python truthiness: None, False, 0, empty string, empty list and empty
dict are falsy, everything else truthy. -/
def PyVal.truthy : PyVal → Bool
  | .none => false
  | .bool b => b
  | .int n => n != 0
  | .str s => s != ""
  | .list xs => !xs.isEmpty
  | .dict xs => !xs.isEmpty

/-- Substring test on character lists: models Python `needle in haystack`. -/
def containsSub : List Char → List Char → Bool
  | [], needle => needle.isEmpty
  | c :: rest, needle => List.isPrefixOf needle (c :: rest) || containsSub rest needle

/-- Models Python `needle in haystack` on strings. -/
def strContains (haystack needle : String) : Bool :=
  containsSub haystack.data needle.data

/-- Python str.lower, modelled characterwise (ASCII case folding). -/
def pyLower (s : String) : String :=
  String.mk (s.data.map Char.toLower)

/-- The fixed transient-failure vocabulary of
RetryHandler.is_retryable_error (rate_limiter.py lines 113-124). -/
def retryable_keywords : List String :=
  ["connection", "timeout", "reset", "refused", "403", "429",
   "rate limit", "too many request", "forbidden", "network"]

/-- RetryHandler.is_retryable_error (rate_limiter.py lines 108-126): the
error's string form is lowercased and tested against the fixed keywords. -/
def is_retryable_error (e : String) : Bool :=
  retryable_keywords.any (fun k => strContains (pyLower e) k)

/-- RateLimiter state (rate_limiter.py lines 30-50): configuration plus the
mutable last-request timestamp (initially 0.0). -/
structure RateLimiter where
  min_interval : ℚ
  max_interval : ℚ
  enable_random : Bool
  last_request_time : ℚ

/-- RateLimiter.wait (rate_limiter.py lines 52-76).  `now` is the clock at
entry; `target` is the value random.uniform(min_interval, max_interval)
would sample.  Returns the slept duration and the new limiter state; the
new last_request_time is the clock after the sleep (now + slept). -/
def RateLimiter.wait (l : RateLimiter) (now target : ℚ) : ℚ × RateLimiter :=
  let elapsed := now - l.last_request_time
  if elapsed < l.min_interval then
    let wait_time := if l.enable_random then target else l.min_interval
    let sleep_time := wait_time - elapsed
    let slept := if 0 < sleep_time then sleep_time else 0
    (slept, { l with last_request_time := now + slept })
  else
    (0, { l with last_request_time := now })

/-- RetryHandler configuration (rate_limiter.py lines 85-106). -/
structure RetryHandler where
  max_retries : Nat
  base_delay : ℚ
  max_delay : ℚ
  enable_random : Bool

/-- RetryHandler.calculate_delay (rate_limiter.py lines 128-136).  `jitter`
is the value random.uniform(1, 3) would sample; it is added only when
enable_random is set, and only AFTER the cap at max_delay. -/
def RetryHandler.calculate_delay (h : RetryHandler) (attempt : Nat) (jitter : ℚ) : ℚ :=
  let delay := h.base_delay * 2 ^ attempt
  let capped := min delay h.max_delay
  if h.enable_random then capped + jitter else capped

/-- The retry loop of RetryHandler.execute (rate_limiter.py lines 150-170),
recursing on the number of remaining retries.  `attempt` is the 0-indexed
attempt counter; `remaining = max_retries - attempt` at entry.  Returns
(result, number of thunk invocations from here, list of slept delays). -/
def execGo (h : RetryHandler) (f : Nat → Except String α) (jitter : Nat → ℚ) :
    Nat → Nat → Except String α × Nat × List ℚ
  | attempt, 0 =>
    match f attempt with
    | Except.ok v => (Except.ok v, 1, [])
    | Except.error e => (Except.error e, 1, [])
  | attempt, r + 1 =>
    match f attempt with
    | Except.ok v => (Except.ok v, 1, [])
    | Except.error e =>
      if is_retryable_error e then
        let d := h.calculate_delay attempt (jitter attempt)
        let rest := execGo h f jitter (attempt + 1) r
        (rest.1, rest.2.1 + 1, d :: rest.2.2)
      else (Except.error e, 1, [])

/-- RetryHandler.execute (rate_limiter.py lines 138-170): run the thunk up
to max_retries + 1 times; re-raise a non-retryable failure immediately,
sleep calculate_delay(attempt) between retryable failures, and re-raise the
last observed failure when attempts are exhausted. -/
def RetryHandler.execute (h : RetryHandler) (f : Nat → Except String α)
    (jitter : Nat → ℚ) : Except String α × Nat × List ℚ :=
  execGo h f jitter 0 h.max_retries

/-- DataCache (rate_limiter.py lines 173-216): the mutable ttl_seconds
field plus the key → (value, expire_time) table (the _cache dict). -/
structure DataCache where
  ttl_seconds : ℚ
  store : String → Option (PyVal × ℚ)

/-- DataCache.get (rate_limiter.py lines 191-203): return the stored value
when now < expire_time, else delete the entry and return None.  Returns the
(Python) result value and the possibly-updated cache. -/
def DataCache.get (c : DataCache) (key : String) (now : ℚ) : PyVal × DataCache :=
  match c.store key with
  | some (value, expire_time) =>
    if now < expire_time then (value, c)
    else (PyVal.none, { c with store := fun k => if k = key then Option.none else c.store k })
  | Option.none => (PyVal.none, c)

/-- DataCache.set (rate_limiter.py lines 205-210): store the value under
the key with expiry now + ttl_seconds, replacing any prior entry. -/
def DataCache.set (c : DataCache) (key : String) (value : PyVal) (now : ℚ) : DataCache :=
  { c with store := fun k => if k = key then some (value, now + c.ttl_seconds) else c.store k }

/-- DataCache.clear (rate_limiter.py lines 212-216). -/
def DataCache.clear (c : DataCache) : DataCache :=
  { c with store := fun _ => Option.none }

/-- SourceRouter state (rate_limiter.py lines 219-239): the configured
candidate table and the per-operation failed sets (dicts modelled as
functions with the Python .get defaults; a missing key maps to []). -/
structure SourceRouter where
  sources : String → List String
  failed_sources : String → List String

/-- SourceRouter.DEFAULT_SOURCES (rate_limiter.py lines 223-229). -/
def DEFAULT_SOURCES : String → List String := fun op =>
  if op = "info" then ["em", "xq"]
  else if op = "spot" then ["em", "sina"]
  else if op = "hist" then ["em", "tx", "sina"]
  else if op = "minute" then ["em", "sina"]
  else if op = "intraday" then ["em", "sina"]
  else []

/-- A freshly constructed SourceRouter() with the default table and no
failure memory. -/
def defaultRouter : SourceRouter :=
  { sources := DEFAULT_SOURCES, failed_sources := fun _ => [] }

/-- SourceRouter.get_source (rate_limiter.py lines 241-262): filter the
configured candidates by the failed set; honour a truthy preferred source
that survives the filter; else return the first survivor, or None. -/
def SourceRouter.get_source (r : SourceRouter) (operation : String)
    (preferred : Option String) : Option String :=
  let available_sources := r.sources operation
  let failed := r.failed_sources operation
  let candidates := available_sources.filter (fun s => !(failed.contains s))
  match preferred with
  | some p => if p != "" && candidates.contains p then some p else candidates.head?
  | Option.none => candidates.head?

/-- Set-insertion into a duplicate-free list: models Python set.add. -/
def insertSet (xs : List String) (x : String) : List String :=
  if xs.contains x then xs else xs ++ [x]

/-- SourceRouter.mark_failed (rate_limiter.py lines 264-270): add the
source to the operation's failed set, unconditionally. -/
def SourceRouter.mark_failed (r : SourceRouter) (operation source : String) : SourceRouter :=
  { r with failed_sources := fun op =>
      if op = operation then insertSet (r.failed_sources op) source
      else r.failed_sources op }

/-- SourceRouter.mark_success (rate_limiter.py lines 272-276): discard the
source from the operation's failed set. -/
def SourceRouter.mark_success (r : SourceRouter) (operation source : String) : SourceRouter :=
  { r with failed_sources := fun op =>
      if op = operation then (r.failed_sources op).erase source
      else r.failed_sources op }

/-- SourceRouter.reset (rate_limiter.py lines 278-282). -/
def SourceRouter.reset (r : SourceRouter) : SourceRouter :=
  { r with failed_sources := fun _ => [] }

/-- One call against a SourceRouter, for reachability statements. -/
inductive RouterOp where
  | getSrc (operation : String) (preferred : Option String)
  | markFailed (operation source : String)
  | markSuccess (operation source : String)
  | reset

/-- Apply one router call to the router state (get_source does not
mutate). -/
def RouterOp.apply (r : SourceRouter) : RouterOp → SourceRouter
  | .getSrc _ _ => r
  | .markFailed op src => r.mark_failed op src
  | .markSuccess op src => r.mark_success op src
  | .reset => r.reset

/-- Run a sequence of router calls. -/
def runOps (r : SourceRouter) (ops : List RouterOp) : SourceRouter :=
  ops.foldl RouterOp.apply r

/-- The claimed invariant: every failed-set is a subset of the operation's
configured candidate list. -/
def routerInv (r : SourceRouter) : Prop :=
  ∀ op s, s ∈ r.failed_sources op → s ∈ r.sources op

/-- The global governance state shared by the governed operations: the
singleton cache, rate limiter, retry handler and source router of
rate_limiter.py lines 285-330. -/
structure GovState where
  cache : DataCache
  limiter : RateLimiter
  retry : RetryHandler
  router : SourceRouter

/-- The cache key f"spot_{symbol}_{source}" of spot.py line 15. -/
def spotCacheKey (symbol source : String) : String :=
  "spot_" ++ symbol ++ "_" ++ source

/-- The output dict of spot.py lines 30-34 (source is hardcoded "tx"). -/
def spotOutput (symbol : String) (result : PyVal) : PyVal :=
  PyVal.dict [("symbol", PyVal.str symbol), ("source", PyVal.str "tx"),
    ("quote", result)]

/-- get_spot (spot.py lines 12-41): cache lookup (hit on truthy), pacing
wait, retry-wrapped fetch (failure re-raised directly: `except Exception:
raise`), then cache write with ttl_seconds set to 30 first. -/
def get_spot (st : GovState) (symbol source : String) (use_cache : Bool)
    (fetch : Nat → Except String PyVal) (now target : ℚ) (jitter : Nat → ℚ) :
    Except String PyVal × GovState :=
  let key := spotCacheKey symbol source
  let gc := if use_cache then st.cache.get key now else (PyVal.none, st.cache)
  if use_cache && gc.1.truthy then (Except.ok gc.1, { st with cache := gc.2 })
  else
    let w := st.limiter.wait now target
    let ex := st.retry.execute fetch jitter
    match ex.1 with
    | Except.error e => (Except.error e, { st with cache := gc.2, limiter := w.2 })
    | Except.ok result =>
      let output := spotOutput symbol result
      let cache2 := if use_cache then
          DataCache.set { gc.2 with ttl_seconds := 30 } key output (now + w.1)
        else gc.2
      (Except.ok output, { st with cache := cache2, limiter := w.2 })

/-- The cache key f"hist_{symbol}_{start}_{end}_{period}_{adjust}" of
hist.py line 23. -/
def histCacheKey (symbol startDate endDate period adjust : String) : String :=
  "hist_" ++ symbol ++ "_" ++ startDate ++ "_" ++ endDate ++ "_" ++ period ++ "_" ++ adjust

/-- The output dict of hist.py lines 38-46 (source is hardcoded "tx"). -/
def histOutput (symbol startDate endDate period adjust : String) (result : PyVal) : PyVal :=
  PyVal.dict [("symbol", PyVal.str symbol), ("start", PyVal.str startDate),
    ("end", PyVal.str endDate), ("period", PyVal.str period),
    ("adjust", PyVal.str adjust), ("source", PyVal.str "tx"), ("data", result)]

/-- get_hist (hist.py lines 12-53): same orchestration as get_spot with a
different key, output shape and a cache ttl of 3600. -/
def get_hist (st : GovState) (symbol startDate endDate period adjust : String)
    (use_cache : Bool) (fetch : Nat → Except String PyVal) (now target : ℚ)
    (jitter : Nat → ℚ) : Except String PyVal × GovState :=
  let key := histCacheKey symbol startDate endDate period adjust
  let gc := if use_cache then st.cache.get key now else (PyVal.none, st.cache)
  if use_cache && gc.1.truthy then (Except.ok gc.1, { st with cache := gc.2 })
  else
    let w := st.limiter.wait now target
    let ex := st.retry.execute fetch jitter
    match ex.1 with
    | Except.error e => (Except.error e, { st with cache := gc.2, limiter := w.2 })
    | Except.ok result =>
      let output := histOutput symbol startDate endDate period adjust result
      let cache2 := if use_cache then
          DataCache.set { gc.2 with ttl_seconds := 3600 } key output (now + w.1)
        else gc.2
      (Except.ok output, { st with cache := cache2, limiter := w.2 })

/-- The freshly initialized global state (rate_limiter.py lines 292-330):
cache with ttl 300 and no entries, limiter (1, 3, random) never used,
retry handler (3, 5, 60, random), default router. -/
def initState : GovState where
  cache := { ttl_seconds := 300, store := fun _ => Option.none }
  limiter := { min_interval := 1, max_interval := 3, enable_random := true,
               last_request_time := 0 }
  retry := { max_retries := 3, base_delay := 5, max_delay := 60, enable_random := true }
  router := defaultRouter

/-! ## Helper lemmas about the retry loop -/

/-- If every invocation of the thunk fails with a retryable error, the
retry loop performs all remaining attempts, reports the error of the last
one, and counts remaining + 1 invocations. -/
theorem execGo_all_fail {α : Type} (h : RetryHandler) (f : Nat → Except String α)
    (jitter : Nat → ℚ) (E : Nat → String)
    (hf : ∀ i, f i = Except.error (E i)) (hr : ∀ i, is_retryable_error (E i) = true) :
    ∀ remaining attempt,
      (execGo h f jitter attempt remaining).1 = Except.error (E (attempt + remaining)) ∧
      (execGo h f jitter attempt remaining).2.1 = remaining + 1 := by
  intro remaining
  induction remaining with
  | zero =>
    intro attempt
    simp [execGo, hf attempt]
  | succ r ih =>
    intro attempt
    have hrec := ih (attempt + 1)
    simp only [execGo, hf attempt, hr attempt, if_true]
    have harith : attempt + 1 + r = attempt + (r + 1) := by omega
    constructor
    · rw [hrec.1, harith]
    · rw [hrec.2]

/-- If an invocation of the thunk succeeds, the retry loop stops there with
that single invocation and no sleep. -/
theorem execGo_first_ok {α : Type} (h : RetryHandler) (f : Nat → Except String α)
    (jitter : Nat → ℚ) (attempt remaining : Nat) (v : α)
    (hf : f attempt = Except.ok v) :
    execGo h f jitter attempt remaining = (Except.ok v, 1, []) := by
  cases remaining <;> simp [execGo, hf]

/-! ## Claims about the retry handler -/

/-- C2 counterexample: with max_retries = 5, baseDelay = 5, maxDelay = 60,
randomization on and a sampled jitter of 1, the delay before the retry
following the 4th failure is 61: it exceeds maxDelay = 60 and differs from
min(baseDelay * 2^4 + jitter, maxDelay) = 60, because the code adds the
jitter after capping at maxDelay. -/
theorem C2_counterexample :
    (⟨5, 5, 60, true⟩ : RetryHandler).calculate_delay 4 1 = 61 ∧
    ¬ ((⟨5, 5, 60, true⟩ : RetryHandler).calculate_delay 4 1 ≤ 60) ∧
    (⟨5, 5, 60, true⟩ : RetryHandler).calculate_delay 4 1 ≠
      min ((5 : ℚ) * 2 ^ 4 + 1) 60 := by
  have h1 : (⟨5, 5, 60, true⟩ : RetryHandler).calculate_delay 4 1 = 61 := by
    simp only [RetryHandler.calculate_delay]
    norm_num
  refine ⟨h1, ?_, ?_⟩
  · rw [h1]; norm_num
  · rw [h1]
    rw [min_eq_right (by norm_num : (60 : ℚ) ≤ 5 * 2 ^ 4 + 1)]
    norm_num

/-- C2 (amended): the delay computed before the retry that follows the k-th
failure equals min(baseDelay * 2^k, maxDelay) + jitter — the cap is applied
before the jitter is added (jitter is 0 when randomization is disabled).
Consequently the delay never exceeds maxDelay when randomization is
disabled, and never exceeds maxDelay + jitter in general. -/
theorem C2_delay_formula (h : RetryHandler) (k : Nat) (j : ℚ) :
    h.calculate_delay k j =
      min (h.base_delay * 2 ^ k) h.max_delay + (if h.enable_random then j else 0) ∧
    (h.enable_random = false → h.calculate_delay k j ≤ h.max_delay) ∧
    (0 ≤ j → h.calculate_delay k j ≤ h.max_delay + j) := by
  cases hb : h.enable_random with
  | false =>
    refine ⟨by simp [RetryHandler.calculate_delay, hb], fun _ => ?_, fun hj => ?_⟩
    · simp only [RetryHandler.calculate_delay, hb, if_false]
      exact min_le_right _ _
    · simp only [RetryHandler.calculate_delay, hb, if_false]
      exact le_trans (min_le_right _ _) (by linarith)
  | true =>
    refine ⟨by simp [RetryHandler.calculate_delay, hb], fun hfalse => ?_, fun hj => ?_⟩
    · exact Bool.noConfusion hfalse
    · simp only [RetryHandler.calculate_delay, hb, if_true]
      have := min_le_right (h.base_delay * 2 ^ k) h.max_delay
      linarith

/-- C2 witness: the amended formula evaluated at baseDelay = 5,
maxDelay = 60, randomization disabled, attempt 2. -/
theorem C2_delay_formula_witness :
    ((⟨3, 5, 60, false⟩ : RetryHandler).enable_random = false) ∧
    (⟨3, 5, 60, false⟩ : RetryHandler).calculate_delay 2 0 ≤ 60 :=
  ⟨rfl, (C2_delay_formula ⟨3, 5, 60, false⟩ 2 0).2.1 rfl⟩

/-- C5: for a RetryHandler with max_retries = n and a thunk that fails with
a retryable error on every invocation, execute invokes the thunk exactly
n + 1 times and re-raises the failure observed on the last invocation. -/
theorem C5_retry_exhaustion {α : Type} (h : RetryHandler) (f : Nat → Except String α)
    (jitter : Nat → ℚ) (E : Nat → String)
    (hf : ∀ i, f i = Except.error (E i)) (hr : ∀ i, is_retryable_error (E i) = true) :
    (h.execute f jitter).1 = Except.error (E h.max_retries) ∧
    (h.execute f jitter).2.1 = h.max_retries + 1 := by
  have := execGo_all_fail h f jitter E hf hr h.max_retries 0
  simpa [RetryHandler.execute] using this

/-- C5 witness: with max_retries = 3 and a thunk always failing with the
retryable error "timeout", execute makes exactly 4 invocations and
re-raises "timeout"; with max_retries = 0 it makes exactly 1. -/
theorem C5_retry_exhaustion_witness :
    is_retryable_error "timeout" = true ∧
    ((⟨3, 5, 60, true⟩ : RetryHandler).execute
      (fun _ => (Except.error "timeout" : Except String Nat)) (fun _ => 1)).2.1 = 4 ∧
    ((⟨3, 5, 60, true⟩ : RetryHandler).execute
      (fun _ => (Except.error "timeout" : Except String Nat)) (fun _ => 1)).1 =
      Except.error "timeout" ∧
    ((⟨0, 5, 60, true⟩ : RetryHandler).execute
      (fun _ => (Except.error "timeout" : Except String Nat)) (fun _ => 1)).2.1 = 1 := by
  have ht : is_retryable_error "timeout" = true := by decide
  exact ⟨ht,
    (C5_retry_exhaustion ⟨3, 5, 60, true⟩ _ _ (fun _ => "timeout")
      (fun _ => rfl) (fun _ => ht)).2,
    (C5_retry_exhaustion ⟨3, 5, 60, true⟩ _ _ (fun _ => "timeout")
      (fun _ => rfl) (fun _ => ht)).1,
    (C5_retry_exhaustion ⟨0, 5, 60, true⟩ _ _ (fun _ => "timeout")
      (fun _ => rfl) (fun _ => ht)).2⟩

/-- C6: a thunk whose first invocation fails with a non-retryable error is
invoked exactly once; the error is re-raised immediately and no backoff
sleep happens. -/
theorem C6_nonretryable_short_circuit {α : Type} (h : RetryHandler)
    (f : Nat → Except String α) (jitter : Nat → ℚ) (e : String)
    (hf : f 0 = Except.error e) (hr : is_retryable_error e = false) :
    h.execute f jitter = (Except.error e, 1, []) := by
  unfold RetryHandler.execute
  cases h.max_retries <;> simp [execGo, hf, hr]

/-- C6 witness: the error "boom" matches no transient keyword; a thunk
raising it is invoked once, the error propagates, and no sleep occurs. -/
theorem C6_nonretryable_short_circuit_witness :
    is_retryable_error "boom" = false ∧
    (⟨3, 5, 60, true⟩ : RetryHandler).execute
      (fun _ => (Except.error "boom" : Except String Nat)) (fun _ => 1) =
      (Except.error "boom", 1, []) :=
  ⟨by decide,
   C6_nonretryable_short_circuit ⟨3, 5, 60, true⟩ _ _ "boom" rfl (by decide)⟩

/-! ## Claims about the cache -/

/-- C3: set stores the value under the key with expiry now + ttl, the ttl
being passed per call by assigning ttl_seconds before the set (the caller
pattern of spot.py lines 36-39 and hist.py lines 48-51); a later set with
the same key replaces both the stored value and the expiry, discarding the
old entry, so the new entry's expiry is t2 + ttl2 no matter what the first
set stored, and a get before that new expiry sees the new value. -/
theorem C3_set_overwrites (c : DataCache) (key : String) (v1 v2 : PyVal)
    (t1 t2 ttl1 ttl2 u : ℚ) :
    (DataCache.set { c with ttl_seconds := ttl1 } key v1 t1).store key =
      some (v1, t1 + ttl1) ∧
    (DataCache.set { DataCache.set { c with ttl_seconds := ttl1 } key v1 t1 with
        ttl_seconds := ttl2 } key v2 t2).store key = some (v2, t2 + ttl2) ∧
    (u < t2 + ttl2 →
      ((DataCache.set { DataCache.set { c with ttl_seconds := ttl1 } key v1 t1 with
          ttl_seconds := ttl2 } key v2 t2).get key u).1 = v2) := by
  refine ⟨by simp [DataCache.set], by simp [DataCache.set], fun hu => ?_⟩
  simp [DataCache.set, DataCache.get, hu]

/-- C3 witness: overwrite an entry of ttl 100 written at time 0 by one of
ttl 5 written at time 1; a get at time 3 (before the new expiry 6) sees
the new value. -/
theorem C3_set_overwrites_witness :
    (3 : ℚ) < 1 + 5 ∧
    ((DataCache.set { DataCache.set
        { (⟨300, fun _ => Option.none⟩ : DataCache) with ttl_seconds := 100 }
        "k" (PyVal.int 1) 0 with ttl_seconds := 5 } "k" (PyVal.int 2) 1).get "k" 3).1 =
      PyVal.int 2 :=
  ⟨by norm_num,
   (C3_set_overwrites ⟨300, fun _ => Option.none⟩ "k" (PyVal.int 1) (PyVal.int 2)
     0 1 100 5 3).2.2 (by norm_num)⟩

/-- C7: get returns the stored value exactly when the current time is
strictly before the entry's expiry, leaving the cache unchanged; at or past
the expiry it returns the miss signal None and deletes the entry; on an
absent key it returns None and leaves the cache unchanged. -/
theorem C7_get_never_stale (c : DataCache) (key : String) (now : ℚ) :
    (∀ v expire, c.store key = some (v, expire) → now < expire →
      c.get key now = (v, c)) ∧
    (∀ v expire, c.store key = some (v, expire) → expire ≤ now →
      (c.get key now).1 = PyVal.none ∧ ((c.get key now).2).store key = Option.none) ∧
    (c.store key = Option.none → c.get key now = (PyVal.none, c)) := by
  refine ⟨fun v expire hs hlt => ?_, fun v expire hs hge => ?_, fun hs => ?_⟩
  · simp [DataCache.get, hs, hlt]
  · have hnlt : ¬ now < expire := not_lt.mpr hge
    constructor
    · simp [DataCache.get, hs, hnlt]
    · simp [DataCache.get, hs, hnlt]
  · simp [DataCache.get, hs]

/-- C7 witness: an entry with expiry 10 is returned at time 5 and the cache
is unchanged; at time 10 the lookup misses and the entry is deleted. -/
theorem C7_get_never_stale_witness :
    ((⟨300, fun k => if k = "k" then some (PyVal.int 7, 10) else Option.none⟩ :
        DataCache).get "k" 5) =
      (PyVal.int 7,
       ⟨300, fun k => if k = "k" then some (PyVal.int 7, 10) else Option.none⟩) ∧
    ((⟨300, fun k => if k = "k" then some (PyVal.int 7, 10) else Option.none⟩ :
        DataCache).get "k" 10).1 = PyVal.none ∧
    (((⟨300, fun k => if k = "k" then some (PyVal.int 7, 10) else Option.none⟩ :
        DataCache).get "k" 10).2).store "k" = Option.none := by
  refine ⟨?_, ?_⟩
  · exact (C7_get_never_stale _ "k" 5).1 (PyVal.int 7) 10 (by simp) (by norm_num)
  · exact (C7_get_never_stale _ "k" 10).2.1 (PyVal.int 7) 10 (by simp) (by norm_num)

/-! ## Claim about the rate limiter -/

/-- C9: one wait() step under a clock at `now` that is at or after the
recorded last release: the new recorded release timestamp is at least
min_interval after the previous one, and a call observing
elapsed < min_interval sleeps for target - elapsed clamped to ≥ 0, where
target is the sampled uniform value in [min_interval, max_interval] when
randomization is enabled and min_interval otherwise. -/
theorem C9_pacing_gap (l : RateLimiter) (now target : ℚ)
    (_hclock : l.last_request_time ≤ now)
    (htarget : l.enable_random = true → l.min_interval ≤ target) :
    l.min_interval ≤ ((l.wait now target).2).last_request_time - l.last_request_time ∧
    (now - l.last_request_time < l.min_interval →
      (l.wait now target).1 =
        max ((if l.enable_random then target else l.min_interval) -
          (now - l.last_request_time)) 0) := by
  unfold RateLimiter.wait
  by_cases hel : now - l.last_request_time < l.min_interval
  · have hwt : l.min_interval ≤ (if l.enable_random then target else l.min_interval) := by
      cases hb : l.enable_random with
      | false => simp [hb]
      | true => simpa [hb] using htarget hb
    have hpos : 0 < (if l.enable_random then target else l.min_interval) -
        (now - l.last_request_time) := by linarith
    constructor
    · simp only [hel, if_true, hpos]
      linarith
    · intro _
      simp only [hel, if_true, hpos]
      rw [max_eq_left (le_of_lt hpos)]
  · constructor
    · simp only [hel, if_false]
      linarith [not_lt.mp hel]
    · intro hcontra
      exact absurd hcontra hel

/-- C9 witness: limiter (min 1, max 3, randomized) whose last release was
at time 10, called at time 10.5 with sampled target 2: the gap between the
recorded releases is ≥ 1, and the sleep is 2 - 0.5 = 1.5. -/
theorem C9_pacing_gap_witness :
    (10 : ℚ) ≤ 21 / 2 ∧
    (1 : ℚ) ≤ (((⟨1, 3, true, 10⟩ : RateLimiter).wait (21 / 2) 2).2).last_request_time -
      (⟨1, 3, true, 10⟩ : RateLimiter).last_request_time ∧
    ((⟨1, 3, true, 10⟩ : RateLimiter).wait (21 / 2) 2).1 =
      max ((if (⟨1, 3, true, 10⟩ : RateLimiter).enable_random then (2 : ℚ) else 1) -
        ((21 / 2 : ℚ) - 10)) 0 := by
  have h := C9_pacing_gap ⟨1, 3, true, 10⟩ (21 / 2) 2 (by norm_num)
    (fun _ => by norm_num)
  exact ⟨by norm_num, h.1, h.2 (by norm_num)⟩

/-! ## Claims about the source router -/

/-- Membership after set-insertion comes from the old set or is the new
element. -/
theorem mem_insertSet {xs : List String} {x s : String} (h : s ∈ insertSet xs x) :
    s ∈ xs ∨ s = x := by
  unfold insertSet at h
  split at h
  · exact Or.inl h
  · rcases List.mem_append.mp h with h1 | h1
    · exact Or.inl h1
    · exact Or.inr (by simpa using h1)

/-- No router call changes the configured candidate table. -/
theorem apply_preserves_sources (r : SourceRouter) (o : RouterOp) :
    (RouterOp.apply r o).sources = r.sources := by
  cases o <;> rfl

/-- One router call preserves the failed-subset invariant as long as a
markFailed call only names a configured candidate of its operation. -/
theorem apply_preserves_inv (r : SourceRouter) (o : RouterOp) (hinv : routerInv r)
    (ho : ∀ op src, o = RouterOp.markFailed op src → src ∈ r.sources op) :
    routerInv (RouterOp.apply r o) := by
  cases o with
  | getSrc op pref => exact hinv
  | reset =>
    intro op s hs
    simp [RouterOp.apply, SourceRouter.reset] at hs
  | markSuccess op src =>
    intro op2 s hs
    simp only [RouterOp.apply, SourceRouter.mark_success] at hs
    by_cases heq : op2 = op
    · rw [if_pos heq] at hs
      exact hinv op2 s (List.mem_of_mem_erase hs)
    · rw [if_neg heq] at hs
      exact hinv op2 s hs
  | markFailed op src =>
    intro op2 s hs
    simp only [RouterOp.apply, SourceRouter.mark_failed] at hs
    by_cases heq : op2 = op
    · rw [if_pos heq] at hs
      rcases mem_insertSet hs with h1 | h1
      · exact hinv op2 s h1
      · rw [heq, h1]
        exact ho op src rfl
    · rw [if_neg heq] at hs
      exact hinv op2 s hs

/-- C4 counterexample: mark_failed does not validate its source argument,
so marking the unknown source "bogus" for operation "spot" puts it in the
failed set even though it is not among the configured candidates
["em", "sina"]: the claimed invariant fails on this reachable state. -/
theorem C4_counterexample :
    ¬ routerInv (defaultRouter.mark_failed "spot" "bogus") := by
  intro h
  have h2 := h "spot" "bogus" (by decide)
  exact absurd h2 (by decide)

/-- C4 (amended): for every SourceRouter state reachable by a sequence of
get_source, mark_failed, mark_success and reset calls in which every
mark_failed call names a source that is among its operation's configured
candidates, the failed-set recorded for each operation is a subset of that
operation's candidate list (starting from a state satisfying the
invariant, e.g. a fresh router). -/
theorem C4_failed_subset (r0 : SourceRouter) (ops : List RouterOp)
    (h0 : routerInv r0)
    (hops : ∀ op src, RouterOp.markFailed op src ∈ ops → src ∈ r0.sources op) :
    routerInv (runOps r0 ops) := by
  induction ops generalizing r0 with
  | nil => exact h0
  | cons o rest ih =>
    have hsrc : (RouterOp.apply r0 o).sources = r0.sources :=
      apply_preserves_sources r0 o
    refine ih (RouterOp.apply r0 o) ?_ ?_
    · refine apply_preserves_inv r0 o h0 (fun op src he => hops op src ?_)
      rw [← he]
      exact List.mem_cons_self o rest
    · intro op src hmem
      rw [hsrc]
      exact hops op src (List.mem_cons_of_mem o hmem)

/-- C4 witness: a fresh default router driven through a valid mark/clear
sequence keeps the invariant. -/
theorem C4_failed_subset_witness :
    routerInv (runOps defaultRouter
      [RouterOp.markFailed "spot" "em", RouterOp.markSuccess "spot" "em",
       RouterOp.markFailed "hist" "tx", RouterOp.reset]) := by
  refine C4_failed_subset defaultRouter _ ?_ ?_
  · intro op s hs
    simp [defaultRouter] at hs
  · intro op src hmem
    simp only [List.mem_cons, List.not_mem_nil, or_false] at hmem
    rcases hmem with h | h | h | h
    · injection h with h1 h2
      subst h1; subst h2
      decide
    · exact RouterOp.noConfusion h
    · injection h with h1 h2
      subst h1; subst h2
      decide
    · exact RouterOp.noConfusion h

/-- C8: get_source returns the preferred source verbatim when it is
non-empty and among the configured candidates not currently failed;
otherwise (preferred absent, empty, or not viable) it returns the head of
the filtered candidate list (the first non-failed candidate in priority
order); and it returns None whenever every configured candidate for the
operation is currently marked failed. -/
theorem C8_get_source_selection (r : SourceRouter) (operation : String)
    (preferred : Option String) :
    (∀ p, preferred = some p → p ≠ "" →
      p ∈ (r.sources operation).filter
        (fun s => !((r.failed_sources operation).contains s)) →
      r.get_source operation preferred = some p) ∧
    (preferred = Option.none →
      r.get_source operation preferred =
        ((r.sources operation).filter
          (fun s => !((r.failed_sources operation).contains s))).head?) ∧
    (∀ p, preferred = some p →
      (p = "" ∨ p ∉ (r.sources operation).filter
        (fun s => !((r.failed_sources operation).contains s))) →
      r.get_source operation preferred =
        ((r.sources operation).filter
          (fun s => !((r.failed_sources operation).contains s))).head?) ∧
    ((∀ s ∈ r.sources operation, s ∈ r.failed_sources operation) →
      r.get_source operation preferred = Option.none) := by
  refine ⟨?_, ?_, ?_, ?_⟩
  · rintro p rfl hne hmem
    have hc : ((r.sources operation).filter
        (fun s => !((r.failed_sources operation).contains s))).contains p = true :=
      List.elem_eq_true_of_mem hmem
    rw [SourceRouter.get_source]
    rw [if_pos (by rw [Bool.and_eq_true]; exact ⟨bne_iff_ne.mpr hne, hc⟩)]
  · rintro rfl
    rfl
  · rintro p rfl hbad
    rw [SourceRouter.get_source]
    rw [if_neg ?_]
    rw [Bool.and_eq_true]
    rintro ⟨h1, h2⟩
    rcases hbad with rfl | hnm
    · exact absurd rfl (bne_iff_ne.mp h1)
    · exact hnm (List.elem_iff.mp h2)
  · intro hall
    have hnil : (r.sources operation).filter
        (fun s => !((r.failed_sources operation).contains s)) = [] := by
      rw [List.filter_eq_nil_iff]
      intro a ha
      simp [hall a ha]
    cases preferred with
    | none =>
      simp only [SourceRouter.get_source]
      rw [hnil]
      rfl
    | some p =>
      simp only [SourceRouter.get_source]
      rw [hnil]
      simp

/-- C8 witness: the spec's router-failover scenario: with "em" marked
failed for "spot", get_source("spot", preferred="em") ignores the failed
preferred source and returns "sina"; a fresh router honours the preferred
source "sina" verbatim; a router with both "em" and "sina" failed returns
None. -/
theorem C8_get_source_selection_witness :
    (defaultRouter.mark_failed "spot" "em").get_source "spot" (some "em") = some "sina" ∧
    defaultRouter.get_source "spot" (some "sina") = some "sina" ∧
    ((defaultRouter.mark_failed "spot" "em").mark_failed "spot" "sina").get_source
      "spot" (some "em") = Option.none := by
  refine ⟨?_, ?_, ?_⟩
  · have h := (C8_get_source_selection (defaultRouter.mark_failed "spot" "em")
      "spot" (some "em")).2.2.1 "em" rfl (Or.inr (by decide))
    rw [h]
    decide
  · exact (C8_get_source_selection defaultRouter "spot" (some "sina")).1 "sina" rfl
      (by decide) (by decide)
  · exact (C8_get_source_selection _ "spot" (some "em")).2.2.2 (by decide)

/-! ## Claims about the orchestration in get_spot / get_hist -/

/-- get_spot never touches the source router: every branch leaves the
router component of the state unchanged. -/
theorem get_spot_router_unchanged (st : GovState) (symbol source : String)
    (use_cache : Bool) (fetch : Nat → Except String PyVal) (now target : ℚ)
    (jitter : Nat → ℚ) :
    (get_spot st symbol source use_cache fetch now target jitter).2.router = st.router := by
  simp only [get_spot]
  repeat' split
  all_goals rfl

/-- get_hist never touches the source router: every branch leaves the
router component of the state unchanged. -/
theorem get_hist_router_unchanged (st : GovState)
    (symbol startDate endDate period adjust : String) (use_cache : Bool)
    (fetch : Nat → Except String PyVal) (now target : ℚ) (jitter : Nat → ℚ) :
    (get_hist st symbol startDate endDate period adjust use_cache fetch now target
      jitter).2.router = st.router := by
  simp only [get_hist]
  repeat' split
  all_goals rfl

/-- C1 counterexample: in the fresh global state, where the router has the
usable alternate candidate "em" for operation "spot" (differing from the
used source "tx"), a get_spot whose fetch always fails with the retryable
error "timeout" still propagates the failure to the caller and never
consults or updates the router — contradicting the claim that the failure
propagates only when no alternate source exists. -/
theorem C1_counterexample :
    (get_spot initState "600000" "tx" true (fun _ => Except.error "timeout")
      100 2 (fun _ => 1)).1 = Except.error "timeout" ∧
    (get_spot initState "600000" "tx" true (fun _ => Except.error "timeout")
      100 2 (fun _ => 1)).2.router.failed_sources "spot" = [] ∧
    initState.router.get_source "spot" (some "tx") = some "em" ∧
    (some "em" : Option String) ≠ some "tx" := by
  have ht : is_retryable_error "timeout" = true := by decide
  have hex : (execGo (⟨3, 5, 60, true⟩ : RetryHandler)
      (fun _ => (Except.error "timeout" : Except String PyVal)) (fun _ => 1) 0 3).1 =
      Except.error "timeout" := by
    simpa using (execGo_all_fail (⟨3, 5, 60, true⟩ : RetryHandler)
      (fun _ => (Except.error "timeout" : Except String PyVal)) (fun _ => 1)
      (fun _ => "timeout") (fun _ => rfl) (fun _ => ht) 3 0).1
  refine ⟨?_, ?_, by decide, by decide⟩
  · simp only [get_spot, initState, RetryHandler.execute, DataCache.get, PyVal.truthy]
    rw [hex]
    simp
  · rw [get_spot_router_unchanged]
    rfl

/-- C1 (amended): when the retry-wrapped fetch of get_spot or get_hist
keeps failing with a retryable classification until retries are exhausted,
the failure always propagates to the caller; the Source Router is never
consulted or modified by these operations (no failed-source marking and no
restart with an alternate source), even when an alternate candidate
exists. -/
theorem C1_no_failover (st : GovState)
    (symbol source startDate endDate period adjust : String) (use_cache : Bool)
    (fetch : Nat → Except String PyVal) (now target : ℚ) (jitter : Nat → ℚ)
    (E : Nat → String)
    (hf : ∀ i, fetch i = Except.error (E i))
    (hr : ∀ i, is_retryable_error (E i) = true) :
    (get_spot st symbol source use_cache fetch now target jitter).2.router = st.router ∧
    (get_hist st symbol startDate endDate period adjust use_cache fetch now target
      jitter).2.router = st.router ∧
    ((st.cache.get (spotCacheKey symbol source) now).1.truthy = false ∨ use_cache = false →
      (get_spot st symbol source use_cache fetch now target jitter).1 =
        Except.error (E st.retry.max_retries)) ∧
    ((st.cache.get (histCacheKey symbol startDate endDate period adjust) now).1.truthy =
        false ∨ use_cache = false →
      (get_hist st symbol startDate endDate period adjust use_cache fetch now target
        jitter).1 = Except.error (E st.retry.max_retries)) := by
  have hex : (st.retry.execute fetch jitter).1 = Except.error (E st.retry.max_retries) := by
    simpa [RetryHandler.execute] using
      (execGo_all_fail st.retry fetch jitter E hf hr st.retry.max_retries 0).1
  refine ⟨get_spot_router_unchanged st symbol source use_cache fetch now target jitter,
    get_hist_router_unchanged st symbol startDate endDate period adjust use_cache fetch
      now target jitter, ?_, ?_⟩
  · intro hmiss
    cases huc : use_cache with
    | false => simp [get_spot, hex]
    | true =>
      rcases hmiss with hm | hm
      · simp [get_spot, hm, hex]
      · simp [huc] at hm
  · intro hmiss
    cases huc : use_cache with
    | false => simp [get_hist, hex]
    | true =>
      rcases hmiss with hm | hm
      · simp [get_hist, hm, hex]
      · simp [huc] at hm

/-- C1 witness: a fresh state, a cache miss, and a fetch always failing
with the retryable "connection reset": get_spot propagates the error and
leaves the router untouched. -/
theorem C1_no_failover_witness :
    is_retryable_error "connection reset" = true ∧
    (initState.cache.get (spotCacheKey "000001" "tx") 50).1.truthy = false ∧
    (get_spot initState "000001" "tx" true (fun _ => Except.error "connection reset")
      50 2 (fun _ => 1)).1 = Except.error "connection reset" ∧
    (get_spot initState "000001" "tx" true (fun _ => Except.error "connection reset")
      50 2 (fun _ => 1)).2.router = initState.router := by
  have ht : is_retryable_error "connection reset" = true := by decide
  have h := C1_no_failover initState "000001" "tx" "" "" "daily" "" true
    (fun _ => Except.error "connection reset") 50 2 (fun _ => 1)
    (fun _ => "connection reset") (fun _ => rfl) (fun _ => ht)
  exact ⟨ht, rfl, h.2.2.1 (Or.inl rfl), h.1⟩

/-- C10: the cache's miss signal is the Python value None itself — a
stored, unexpired None is returned as None, exactly like an absent key —
and the governed operations test the cached result for truthiness, so any
falsy cached value (None, empty dict, empty list, ...) is treated as a
miss: get_spot / get_hist proceed to the paced fresh fetch and return its
freshly built output instead of the cached value. -/
theorem C10_falsy_cache_is_miss (st : GovState)
    (key symbol source startDate endDate period adjust : String)
    (fetch : Nat → Except String PyVal) (now target : ℚ) (jitter : Nat → ℚ)
    (v : PyVal) (expire : ℚ) (res : PyVal) :
    (st.cache.store key = some (PyVal.none, expire) → now < expire →
      (st.cache.get key now).1 = PyVal.none) ∧
    (st.cache.store key = Option.none → (st.cache.get key now).1 = PyVal.none) ∧
    (st.cache.store (spotCacheKey symbol source) = some (v, expire) → now < expire →
      v.truthy = false → fetch 0 = Except.ok res →
      (get_spot st symbol source true fetch now target jitter).1 =
        Except.ok (spotOutput symbol res)) ∧
    (st.cache.store (histCacheKey symbol startDate endDate period adjust) =
        some (v, expire) → now < expire →
      v.truthy = false → fetch 0 = Except.ok res →
      (get_hist st symbol startDate endDate period adjust true fetch now target
        jitter).1 = Except.ok (histOutput symbol startDate endDate period adjust res)) := by
  have hexec : ∀ hok : fetch 0 = Except.ok res,
      st.retry.execute fetch jitter = (Except.ok res, 1, []) := fun hok =>
    execGo_first_ok st.retry fetch jitter 0 st.retry.max_retries res hok
  refine ⟨fun hs hlt => ?_, fun hs => ?_, fun hs hlt hfal hok => ?_,
    fun hs hlt hfal hok => ?_⟩
  · simp [DataCache.get, hs, hlt]
  · simp [DataCache.get, hs]
  · have hget : st.cache.get (spotCacheKey symbol source) now = (v, st.cache) := by
      simp [DataCache.get, hs, hlt]
    simp [get_spot, hget, hfal, hexec hok]
  · have hget : st.cache.get (histCacheKey symbol startDate endDate period adjust) now =
        (v, st.cache) := by
      simp [DataCache.get, hs, hlt]
    simp [get_hist, hget, hfal, hexec hok]

/-- C10 witness: an unexpired cached empty dict under the spot key and an
unexpired cached empty list under the hist key are both treated as misses:
the fresh fetch result is returned, not the cached falsy value. -/
theorem C10_falsy_cache_is_miss_witness :
    PyVal.truthy (PyVal.dict []) = false ∧
    PyVal.truthy (PyVal.list []) = false ∧
    (get_spot
      { cache := ⟨300, fun k => if k = spotCacheKey "000001" "tx"
          then some (PyVal.dict [], 90) else Option.none⟩,
        limiter := ⟨1, 3, true, 0⟩, retry := ⟨3, 5, 60, true⟩,
        router := defaultRouter } "000001" "tx" true
      (fun _ => Except.ok (PyVal.int 5)) 10 2 (fun _ => 1)).1 =
      Except.ok (spotOutput "000001" (PyVal.int 5)) ∧
    (get_hist
      { cache := ⟨300, fun k => if k = histCacheKey "000001" "20240101" "20240131" "daily" ""
          then some (PyVal.list [], 90) else Option.none⟩,
        limiter := ⟨1, 3, true, 0⟩, retry := ⟨3, 5, 60, true⟩,
        router := defaultRouter } "000001" "20240101" "20240131" "daily" "" true
      (fun _ => Except.ok (PyVal.int 5)) 10 2 (fun _ => 1)).1 =
      Except.ok (histOutput "000001" "20240101" "20240131" "daily" "" (PyVal.int 5)) := by
  refine ⟨by decide, by decide, ?_, ?_⟩
  · exact (C10_falsy_cache_is_miss _ "x" "000001" "tx" "" "" "" ""
      (fun _ => Except.ok (PyVal.int 5)) 10 2 (fun _ => 1)
      (PyVal.dict []) 90 (PyVal.int 5)).2.2.1 (by simp) (by norm_num) (by decide) rfl
  · exact (C10_falsy_cache_is_miss _ "x" "000001" "tx" "20240101" "20240131" "daily" ""
      (fun _ => Except.ok (PyVal.int 5)) 10 2 (fun _ => 1)
      (PyVal.list []) 90 (PyVal.int 5)).2.2.2 (by simp) (by norm_num) (by decide) rfl

end AkshareGov
